import Mathlib

/-!
Verification of the Certificate Issuance Core of `app.py`
(certificate generator: serial allocation, ledger persistence,
rendering pipeline, delivery).

The Python source is shallowly embedded: pure helpers become Lean
functions, the Streamlit session / network world becomes an explicit
`Env`, and the submit handler of `main` becomes a function from the
environment and the session ledger to a run result that records the
final ledger, the user-visible messages and an event trace.
-/

namespace CertGen

/-- One certificate record, as built in `main`:
`{'serial': ..., 'name': ..., 'email': ..., 'date': ...}` (key order
is the Python dict insertion order, which pandas preserves). -/
structure Cert where
  serial : String
  name   : String
  email  : String
  date   : String
deriving Repr, DecidableEq

/-- The value of `datetime.now()`: the program's allocation logic reads
only the `year` component; everything finer (month, day, time) is kept
in `sub` so that dependence on the full timestamp can be stated. -/
structure Datetime where
  year : Nat
  sub  : Nat
deriving Repr, DecidableEq

/-- Decimal digits of a natural number, least significant first.  The
first argument is fuel (structural recursion so that the kernel can
evaluate it); any fuel `≥ n` computes all digits of `n`. -/
def natDigitsRevAux : Nat → Nat → List Char
  | 0, _ => []
  | _ + 1, 0 => []
  | fuel + 1, n + 1 =>
      Char.ofNat (48 + (n + 1) % 10) :: natDigitsRevAux fuel ((n + 1) / 10)

/-- Decimal digits of a natural number, least significant first. -/
def natDigitsRev (n : Nat) : List Char :=
  natDigitsRevAux n n

/-- Python `str(n)` for a nonnegative integer. -/
def natToString (n : Nat) : String :=
  if n = 0 then "0" else ⟨(natDigitsRev n).reverse⟩

/-- Python `s.zfill(width)`: left-pad with `'0'` to the given width. -/
def zfill (width : Nat) (s : String) : String :=
  ⟨List.replicate (width - s.length) '0' ++ s.data⟩

/-- The last `'-'`-separated segment of a string: Python
`serial.split('-')[-1]` (the suffix after the final dash, or the whole
string when no dash occurs). -/
def lastSeg (s : String) : String :=
  ⟨(s.data.reverse.takeWhile (fun c => c ≠ '-')).reverse⟩

/-- Value of a digit string, most significant first. -/
def digitsToNat (cs : List Char) : Nat :=
  cs.foldl (fun a c => a * 10 + (c.toNat - 48)) 0

/-- Python `int` strips surrounding whitespace before parsing. -/
def pyTrim (cs : List Char) : List Char :=
  ((cs.dropWhile Char.isWhitespace).reverse.dropWhile Char.isWhitespace).reverse

/-- Python `int(s)` restricted to the shapes that occur here: optional
surrounding whitespace around a nonempty run of decimal digits parses;
anything else raises `ValueError` (`none`). -/
def pyParseNat (s : String) : Option Nat :=
  let t := pyTrim s.data
  if t ≠ [] ∧ t.all Char.isDigit then some (digitsToNat t) else none

/-- One step of the `last_number` loop of `generate_serial_number`:
`last_number = max(last_number, int(serial.split('-')[-1]))`, with a
`ValueError` skipping the record (`continue`). -/
def bump (acc : Nat) (c : Cert) : Nat :=
  match pyParseNat (lastSeg c.serial) with
  | some n => max acc n
  | none => acc

/-- The `last_number` loop of `generate_serial_number`: starting from 0,
fold over the records, taking the `max` with each serial suffix that
parses as an integer and skipping the ones that do not. -/
def lastNumber (certs : List Cert) : Nat :=
  certs.foldl bump 0

/-- `generate_serial_number`: reads the session ledger and the current
year and returns `f"PY-{current_year}-{str(last_number + 1).zfill(4)}"`. -/
def generate_serial_number (certs : List Cert) (now : Datetime) : String :=
  "PY-" ++ natToString now.year ++ "-" ++ zfill 4 (natToString (lastNumber certs + 1))

/-- The resolved SMTP configuration returned by `get_email_config`
(secrets or environment variables; defaults already applied). -/
structure EmailConfig where
  server   : String
  port     : Nat
  email    : String
  password : String
deriving Repr, DecidableEq

/-- `all(config.values())` in `send_certificate`: every configuration
value is truthy (non-empty string, non-zero port). -/
def allValues (c : EmailConfig) : Bool :=
  c.server ≠ "" && c.port ≠ 0 && c.email ≠ "" && c.password ≠ ""

/-- The external world one run of the app observes: the clock, the
resolved configuration, the GitHub remote, and whether each fallible
library call succeeds.  The `...ErrMsg` fields carry the text of the
exception each failing call would raise (`str(e)` is what `main` shows). -/
structure Env where
  now             : Datetime
  emailCfg        : EmailConfig
  githubToken     : String        -- "" models missing token (falsy)
  githubRepo      : String        -- "" models missing repo name (falsy)
  githubReachable : Bool          -- Github API calls succeed at all
  remoteLedger    : Option (List Cert)  -- records.csv content; none = 404
  templateOk      : Bool          -- PSDImage.open / compose succeed
  fontOk          : Bool          -- ImageFont.truetype calls succeed
  exportOk        : Bool          -- PDF conversion succeeds
  smtpOk          : Bool          -- SMTP starttls/login/send succeed
  saveWriteOk     : Bool          -- repo.update_file / create_file succeed
  templateErrMsg  : String
  fontErrMsg      : String
  exportErrMsg    : String
  smtpErrMsg      : String
deriving Repr, DecidableEq

/-- `load_existing_records`: missing GitHub configuration logs an error
and returns `[]`; any exception while reaching GitHub returns `[]`; a
`GithubException` for a missing file returns `[]`; otherwise the parsed
rows of `certificates/records.csv`. -/
def load_existing_records (env : Env) : List Cert :=
  if env.githubToken = "" || env.githubRepo = "" then []
  else if !env.githubReachable then []
  else
    match env.remoteLedger with
    | none => []
    | some certs => certs

/-- Minimal CSV quoting as `DataFrame.to_csv` performs it: a field
containing a comma, quote, or line break is wrapped in double quotes
with inner quotes doubled. -/
def csvField (s : String) : String :=
  if s.data.any (fun c => c = ',' || c = '"' || c = '\n' || c = '\r') then
    "\"" ++ ⟨(s.data.map (fun c => if c = '"' then ['"', '"'] else [c])).flatten⟩ ++ "\""
  else s

/-- One data row of the persisted ledger: the four dict values in key
order `serial, name, email, date`, comma-separated. -/
def certRow (c : Cert) : String :=
  csvField c.serial ++ "," ++ csvField c.name ++ "," ++ csvField c.email
    ++ "," ++ csvField c.date

/-- The lines of `df.to_csv(index=False)` for the certificate records:
a header row of the dict keys followed by one row per record. -/
def ledgerCSVLines (data : List Cert) : List String :=
  "serial,name,email,date" :: data.map certRow

/-- The full text written to `certificates/records.csv`: every line
(header included) terminated by a newline. -/
def ledgerCSV (data : List Cert) : String :=
  String.join ((ledgerCSVLines data).map (fun line => line ++ "\n"))

/-- `save_to_github data`: returns whether the write succeeded together
with the file content written.  Missing configuration raises a
`ValueError` that its own `try` converts to `False`; so does any GitHub
exception.  On success the whole serialized ledger is written. -/
def save_to_github (env : Env) (data : List Cert) : Bool × Option String :=
  if env.githubToken = "" || env.githubRepo = "" then (false, none)
  else if !env.githubReachable then (false, none)
  else if !env.saveWriteOk then (false, none)
  else (true, some (ledgerCSV data))

/-- Text-compositor geometry of `modify_psd`, with the measured text
width as input (the bounding box is library-computed):
`name_x = 959 - (name_width / 2)` — Python float division. -/
def name_x (w : ℚ) : ℚ := 959 - w / 2

/-- The fixed point at which the date is drawn: `draw.text((660, 1038), date, ...)`. -/
def date_pos : ℚ × ℚ := (660, 1038)

/-- `serial_x = 1714 - serial_width - 40`. -/
def serial_x (w : ℚ) : ℚ := 1714 - w - 40

/-- Kinds of user-facing Streamlit messages the submit handler emits. -/
inductive MsgKind where
  | success
  | error
  | warning
deriving Repr, DecidableEq

/-- Events of one submit-handler run, in program order. -/
inductive Ev where
  | allocate (serial : String)  -- generate_serial_number returned
  | templateOpened              -- PSDImage.open / compose succeeded
  | templateError               -- PSDImage.open / compose raised
  | fontsLoaded                 -- ImageFont.truetype calls succeeded
  | fontError                   -- ImageFont.truetype raised OSError
  | rendered                    -- text drawn, PNG written
  | exported                    -- PDF produced
  | exportError                 -- PDF conversion raised
  | cfgError                    -- ValueError: missing email configuration
  | smtpConnect                 -- SMTP session opened
  | smtpError                   -- SMTP raised
  | emailSentEv                 -- message accepted by the relay
  | append (c : Cert)           -- record appended to session ledger
  | saveAttempt                 -- save_to_github called
  | saveOkEv                    -- remote write succeeded
  | saveFailEv                  -- save_to_github returned False
deriving Repr, DecidableEq

/-- Outcome of one run of the submit handler. -/
structure RunResult where
  certs         : List Cert
  messages      : List (MsgKind × String)
  emailSent     : Bool
  saveAttempted : Bool
  trace         : List Ev
deriving Repr, DecidableEq

/-- The body of `main`'s submit branch (all form fields filled): allocate
a serial, render via `modify_psd`, convert to PDF, send the email, and
only then append to the session ledger and push it to GitHub.  Any
exception is caught by the surrounding `try` and shown with
`st.error(str(e))`, leaving the session ledger untouched. -/
def runIssuance (env : Env) (certs0 : List Cert)
    (fullName email dateStr : String) : RunResult :=
  let serial := generate_serial_number certs0 env.now
  if !env.templateOk then
    { certs := certs0
      messages := [(MsgKind.error, env.templateErrMsg)]
      emailSent := false
      saveAttempted := false
      trace := [Ev.allocate serial, Ev.templateError] }
  else if !env.fontOk then
    { certs := certs0
      messages := [(MsgKind.error, env.fontErrMsg)]
      emailSent := false
      saveAttempted := false
      trace := [Ev.allocate serial, Ev.templateOpened, Ev.fontError] }
  else if !env.exportOk then
    { certs := certs0
      messages := [(MsgKind.error, env.exportErrMsg)]
      emailSent := false
      saveAttempted := false
      trace := [Ev.allocate serial, Ev.templateOpened, Ev.fontsLoaded,
                Ev.rendered, Ev.exportError] }
  else if !allValues env.emailCfg then
    { certs := certs0
      messages := [(MsgKind.error, "Missing email configuration")]
      emailSent := false
      saveAttempted := false
      trace := [Ev.allocate serial, Ev.templateOpened, Ev.fontsLoaded,
                Ev.rendered, Ev.exported, Ev.cfgError] }
  else if !env.smtpOk then
    { certs := certs0
      messages := [(MsgKind.error, env.smtpErrMsg)]
      emailSent := false
      saveAttempted := false
      trace := [Ev.allocate serial, Ev.templateOpened, Ev.fontsLoaded,
                Ev.rendered, Ev.exported, Ev.smtpConnect, Ev.smtpError] }
  else
    let cert : Cert := ⟨serial, fullName, email, dateStr⟩
    let certs1 := certs0 ++ [cert]
    let saved := (save_to_github env certs1).1
    { certs := certs1
      messages := (MsgKind.success, "Email sent successfully!") ::
        (if saved then
          [(MsgKind.success, "Certificate data saved to GitHub successfully!")]
        else [])
      emailSent := true
      saveAttempted := true
      trace := [Ev.allocate serial, Ev.templateOpened, Ev.fontsLoaded,
                Ev.rendered, Ev.exported, Ev.smtpConnect, Ev.emailSentEv,
                Ev.append cert, Ev.saveAttempt] ++
        (if saved then [Ev.saveOkEv] else [Ev.saveFailEv]) }

/-- Value of a digit list read least-significant-digit-last, i.e. the
digits in most-significant-first order consumed from the right. -/
def valRev (cs : List Char) : Nat :=
  cs.foldr (fun c a => a * 10 + (c.toNat - 48)) 0

/-- A syntactically well-formed serial: the literal prefix `PY-`, a
nonempty run of digits for the year, a dash, and a nonempty run of
digits for the counter. -/
def ValidSerial (s : String) : Prop :=
  ∃ y n : String,
    s = "PY-" ++ y ++ "-" ++ n ∧ y ≠ "" ∧ n ≠ ""
      ∧ (∀ c ∈ y.data, c.isDigit = true) ∧ (∀ c ∈ n.data, c.isDigit = true)

/-- Spec-side helper for stating the ledger-format claim: whether the
character sequence `pat` occurs contiguously inside `l` (used to ask
whether the persisted header mentions a given field name). -/
def containsSeq (pat : List Char) : List Char → Bool
  | [] => pat.isEmpty
  | c :: rest => pat.isPrefixOf (c :: rest) || containsSeq pat rest

/-- A fully populated SMTP configuration, for concrete runs. -/
def cfgOk : EmailConfig :=
  ⟨"smtp.gmail.com", 587, "sender@example.com", "app-password"⟩

/-- An SMTP configuration with the sender e-mail and password missing. -/
def cfgMissing : EmailConfig :=
  ⟨"smtp.gmail.com", 587, "", ""⟩

/-- A healthy environment: all resources present, all calls succeed,
remote ledger present and empty, clock at the start of 2025. -/
def envOk : Env :=
  { now := ⟨2025, 0⟩
    emailCfg := cfgOk
    githubToken := "token"
    githubRepo := "owner/repo"
    githubReachable := true
    remoteLedger := some []
    templateOk := true
    fontOk := true
    exportOk := true
    smtpOk := true
    saveWriteOk := true
    templateErrMsg := "cannot open template"
    fontErrMsg := "cannot open resource"
    exportErrMsg := "cannot write pdf"
    smtpErrMsg := "smtp failure" }

/-! ## Supporting lemmas: decimal digits and parsing -/

theorem digitChar_toNat (r : Nat) (h : r < 10) :
    (Char.ofNat (48 + r)).toNat = 48 + r := by
  interval_cases r <;> decide

theorem digitChar_isDigit (r : Nat) (h : r < 10) :
    (Char.ofNat (48 + r)).isDigit = true := by
  interval_cases r <;> decide

theorem isDigit_not_whitespace (c : Char) (h : c.isDigit = true) :
    c.isWhitespace = false := by
  simp [Char.isDigit, Char.isWhitespace, decide_eq_true_eq, Char.ext_iff] at *
  refine ⟨⟨⟨?_, ?_⟩, ?_⟩, ?_⟩ <;> · intro hc; rw [hc] at h; revert h; decide

theorem isDigit_ne_dash (c : Char) (h : c.isDigit = true) : c ≠ '-' := by
  rintro rfl
  revert h
  decide

theorem natDigitsRevAux_isDigit :
    ∀ fuel n : Nat, ∀ c ∈ natDigitsRevAux fuel n, c.isDigit = true := by
  intro fuel
  induction fuel with
  | zero => intro n c hc; simp [natDigitsRevAux] at hc
  | succ fuel ih =>
      intro n c hc
      cases n with
      | zero => simp [natDigitsRevAux] at hc
      | succ m =>
          simp only [natDigitsRevAux, List.mem_cons] at hc
          rcases hc with hc | hc
          · subst hc
            exact digitChar_isDigit _ (Nat.mod_lt _ (by decide))
          · exact ih _ _ hc

theorem valRev_natDigitsRevAux :
    ∀ fuel n : Nat, n ≤ fuel → valRev (natDigitsRevAux fuel n) = n := by
  intro fuel
  induction fuel with
  | zero =>
      intro n hn
      interval_cases n
      rfl
  | succ fuel ih =>
      intro n hn
      cases n with
      | zero => rfl
      | succ m =>
          have hdiv : (m + 1) / 10 ≤ fuel := by
            have : (m + 1) / 10 < m + 1 := Nat.div_lt_self (Nat.succ_pos m) (by decide)
            omega
          simp only [natDigitsRevAux, valRev, List.foldr_cons]
          have hrec : valRev (natDigitsRevAux fuel ((m + 1) / 10)) = (m + 1) / 10 :=
            ih _ hdiv
          simp only [valRev] at hrec
          rw [hrec, digitChar_toNat _ (Nat.mod_lt _ (by decide))]
          omega

theorem digitsToNat_reverse (l : List Char) :
    digitsToNat l.reverse = valRev l := by
  simp [digitsToNat, valRev, List.foldl_reverse]

theorem digitsToNat_natToString (n : Nat) :
    digitsToNat (natToString n).data = n := by
  by_cases h : n = 0
  · subst h; decide
  · unfold natToString
    rw [if_neg h]
    show digitsToNat (natDigitsRev n).reverse = n
    rw [digitsToNat_reverse]
    exact valRev_natDigitsRevAux n n (Nat.le_refl n)

theorem natToString_isDigit (n : Nat) :
    ∀ c ∈ (natToString n).data, c.isDigit = true := by
  by_cases h : n = 0
  · subst h; decide
  · unfold natToString
    rw [if_neg h]
    intro c hc
    show c.isDigit = true
    have : c ∈ natDigitsRev n := by
      simpa [List.mem_reverse] using hc
    exact natDigitsRevAux_isDigit n n c this

theorem natToString_data_ne_nil (n : Nat) : (natToString n).data ≠ [] := by
  by_cases h : n = 0
  · subst h; decide
  · unfold natToString
    rw [if_neg h]
    show (natDigitsRev n).reverse ≠ []
    cases n with
    | zero => exact absurd rfl h
    | succ m =>
        simp [natDigitsRev, natDigitsRevAux]

theorem foldl_digit_replicate_zero (k : Nat) :
    List.foldl (fun a c => a * 10 + (c.toNat - 48)) 0 (List.replicate k '0') = 0 := by
  induction k with
  | zero => rfl
  | succ k ih => simpa [List.replicate_succ] using ih

theorem digitsToNat_zfill (w : Nat) (s : String) :
    digitsToNat (zfill w s).data = digitsToNat s.data := by
  show digitsToNat (List.replicate (w - s.length) '0' ++ s.data) = digitsToNat s.data
  simp [digitsToNat, List.foldl_append, foldl_digit_replicate_zero]

theorem zfill_isDigit (w : Nat) (s : String)
    (h : ∀ c ∈ s.data, c.isDigit = true) :
    ∀ c ∈ (zfill w s).data, c.isDigit = true := by
  intro c hc
  have hc' : c ∈ List.replicate (w - s.length) '0' ++ s.data := hc
  rcases List.mem_append.mp hc' with hc' | hc'
  · rw [List.eq_of_mem_replicate hc']
    decide
  · exact h c hc'

theorem zfill_data_ne_nil (w : Nat) (s : String) (h : s.data ≠ []) :
    (zfill w s).data ≠ [] := by
  show List.replicate (w - s.length) '0' ++ s.data ≠ []
  simp [h]

theorem dropWhile_of_forall_false {p : Char → Bool} (l : List Char)
    (h : ∀ c ∈ l, p c = false) : l.dropWhile p = l := by
  cases l with
  | nil => rfl
  | cons a l => simp [List.dropWhile_cons, h a (by simp)]

theorem pyTrim_of_digits (l : List Char) (h : ∀ c ∈ l, c.isDigit = true) :
    pyTrim l = l := by
  unfold pyTrim
  rw [dropWhile_of_forall_false l (fun c hc => isDigit_not_whitespace c (h c hc))]
  rw [dropWhile_of_forall_false l.reverse
    (fun c hc => isDigit_not_whitespace c (h c (List.mem_reverse.mp hc)))]
  exact List.reverse_reverse l

theorem pyParseNat_of_digits (s : String) (h1 : s.data ≠ [])
    (h2 : ∀ c ∈ s.data, c.isDigit = true) :
    pyParseNat s = some (digitsToNat s.data) := by
  unfold pyParseNat
  rw [pyTrim_of_digits s.data h2]
  rw [if_pos ⟨h1, List.all_eq_true.mpr h2⟩]

theorem pyParseNat_zfill_natToString (w n : Nat) :
    pyParseNat (zfill w (natToString n)) = some n := by
  rw [pyParseNat_of_digits _
    (zfill_data_ne_nil w _ (natToString_data_ne_nil n))
    (zfill_isDigit w _ (natToString_isDigit n))]
  rw [digitsToNat_zfill, digitsToNat_natToString]

/-! ## Supporting lemmas: the serial suffix -/

theorem takeWhile_append_cons {p : Char → Bool} (l1 : List Char) (x : Char)
    (l2 : List Char) (h : ∀ c ∈ l1, p c = true) (hx : p x = false) :
    (l1 ++ x :: l2).takeWhile p = l1 := by
  induction l1 with
  | nil => simp [List.takeWhile_cons, hx]
  | cons a l1 ih =>
      have ha : p a = true := h a (by simp)
      simp [List.takeWhile_cons, ha, ih (fun c hc => h c (by simp [hc]))]

theorem lastSeg_eq (s : String) (pre d : List Char)
    (hs : s.data = pre ++ '-' :: d) (hd : ∀ c ∈ d, c ≠ '-') :
    lastSeg s = ⟨d⟩ := by
  unfold lastSeg
  rw [hs]
  have hrev : (pre ++ '-' :: d).reverse = d.reverse ++ '-' :: pre.reverse := by
    simp
  rw [hrev]
  rw [takeWhile_append_cons d.reverse '-' pre.reverse
    (fun c hc => decide_eq_true (hd c (List.mem_reverse.mp hc)))
    (by decide)]
  rw [List.reverse_reverse]

theorem generate_serial_number_data (certs : List Cert) (now : Datetime) :
    (generate_serial_number certs now).data =
      ('P' :: 'Y' :: '-' :: (natToString now.year).data) ++
        '-' :: (zfill 4 (natToString (lastNumber certs + 1))).data := by
  show ((("PY-" ++ natToString now.year) ++ "-") ++
      zfill 4 (natToString (lastNumber certs + 1))).data = _
  simp [String.data_append]

theorem lastSeg_generate_serial_number (certs : List Cert) (now : Datetime) :
    lastSeg (generate_serial_number certs now) =
      zfill 4 (natToString (lastNumber certs + 1)) := by
  have hd : ∀ c ∈ (zfill 4 (natToString (lastNumber certs + 1))).data, c ≠ '-' :=
    fun c hc =>
      isDigit_ne_dash c (zfill_isDigit 4 _ (natToString_isDigit _) c hc)
  have := lastSeg_eq (generate_serial_number certs now)
    ('P' :: 'Y' :: '-' :: (natToString now.year).data)
    (zfill 4 (natToString (lastNumber certs + 1))).data
    (generate_serial_number_data certs now) hd
  rw [this]

theorem pyParseNat_lastSeg_generate (certs : List Cert) (now : Datetime) :
    pyParseNat (lastSeg (generate_serial_number certs now)) =
      some (lastNumber certs + 1) := by
  rw [lastSeg_generate_serial_number, pyParseNat_zfill_natToString]

/-! ## Supporting lemmas: the `last_number` fold -/

theorem le_bump (acc : Nat) (c : Cert) : acc ≤ bump acc c := by
  unfold bump
  cases pyParseNat (lastSeg c.serial) with
  | none => exact Nat.le_refl acc
  | some n => exact Nat.le_max_left acc n

theorem le_foldl_bump : ∀ (l : List Cert) (acc : Nat), acc ≤ l.foldl bump acc := by
  intro l
  induction l with
  | nil => intro acc; exact Nat.le_refl acc
  | cons c l ih =>
      intro acc
      exact Nat.le_trans (le_bump acc c) (ih (bump acc c))

theorem parse_le_foldl_bump :
    ∀ (l : List Cert) (acc : Nat) (c : Cert) (n : Nat), c ∈ l →
      pyParseNat (lastSeg c.serial) = some n → n ≤ l.foldl bump acc := by
  intro l
  induction l with
  | nil => intro acc c n hc; exact absurd hc (List.not_mem_nil c)
  | cons a l ih =>
      intro acc c n hc hp
      rcases List.mem_cons.mp hc with hc | hc
      · subst hc
        have h1 : n ≤ bump acc c := by
          unfold bump
          rw [hp]
          exact Nat.le_max_right acc n
        exact Nat.le_trans h1 (le_foldl_bump l (bump acc c))
      · exact ih (bump acc a) c n hc hp

theorem parse_le_lastNumber (certs : List Cert) (c : Cert) (n : Nat)
    (hc : c ∈ certs) (hp : pyParseNat (lastSeg c.serial) = some n) :
    n ≤ lastNumber certs :=
  parse_le_foldl_bump certs 0 c n hc hp

theorem lastNumber_append_parse (certs : List Cert) (c : Cert) (n : Nat)
    (hp : pyParseNat (lastSeg c.serial) = some n) :
    lastNumber (certs ++ [c]) = max (lastNumber certs) n := by
  simp [lastNumber, List.foldl_append, bump, hp]

theorem lastNumber_append_bad (certs : List Cert) (c : Cert)
    (hp : pyParseNat (lastSeg c.serial) = none) :
    lastNumber (certs ++ [c]) = lastNumber certs := by
  simp [lastNumber, List.foldl_append, bump, hp]

theorem generate_ne_of_parse (certs : List Cert) (now : Datetime) (c : Cert)
    (n : Nat) (hc : c ∈ certs) (hp : pyParseNat (lastSeg c.serial) = some n) :
    generate_serial_number certs now ≠ c.serial := by
  intro he
  have h1 := pyParseNat_lastSeg_generate certs now
  rw [he, hp] at h1
  have h2 : n ≤ lastNumber certs := parse_le_lastNumber certs c n hc hp
  have h3 : n = lastNumber certs + 1 := Option.some.inj h1
  omega

theorem generate_valid (certs : List Cert) (now : Datetime) :
    ValidSerial (generate_serial_number certs now) := by
  refine ⟨natToString now.year, zfill 4 (natToString (lastNumber certs + 1)),
    rfl, ?_, ?_, natToString_isDigit _, zfill_isDigit 4 _ (natToString_isDigit _)⟩
  · intro h
    exact natToString_data_ne_nil now.year (by rw [h])
  · intro h
    exact zfill_data_ne_nil 4 _ (natToString_data_ne_nil _) (by rw [h])

/-! ## Claims -/

/-- C1, counterexample: on a one-record ledger whose serial suffix is
`0005`, the allocator returns `PY-2025-0006`, whose numeric suffix 6 is
not the ledger length plus one (2); moreover the empty-ledger serial is
`PY-2025-0001`, not `PY2025-0001`. -/
theorem generate_suffix_not_length_counterexample :
    generate_serial_number [Cert.mk "PY-2025-0005" "A" "a@b.c" "May 01 2025"] ⟨2025, 0⟩
      = "PY-2025-0006"
    ∧ [Cert.mk "PY-2025-0005" "A" "a@b.c" "May 01 2025"].length + 1 = 2
    ∧ pyParseNat (lastSeg "PY-2025-0006") = some 6
    ∧ (6 : Nat) ≠ 2
    ∧ generate_serial_number [] ⟨2025, 0⟩ ≠ "PY2025-0001" := by
  decide

/-- C1, amended: the allocator returns `PY-<year>-<zfill4 (m+1)>` where
`m` is the largest parseable numeric suffix among the existing records
(not the ledger length); on an empty ledger this is `PY-<year>-0001`,
and after one issuance from an empty ledger the next allocation is
`PY-<year>-0002`. -/
theorem generate_suffix_is_max_succ (certs : List Cert) (now : Datetime)
    (name email dateStr : String) :
    pyParseNat (lastSeg (generate_serial_number certs now))
      = some (lastNumber certs + 1)
    ∧ generate_serial_number [] now = "PY-" ++ natToString now.year ++ "-0001"
    ∧ generate_serial_number
        [Cert.mk (generate_serial_number [] now) name email dateStr] now
      = "PY-" ++ natToString now.year ++ "-0002" := by
  refine ⟨pyParseNat_lastSeg_generate certs now, ?_, ?_⟩
  · show ("PY-" ++ natToString now.year ++ "-") ++
      zfill 4 (natToString (lastNumber [] + 1)) = _
    rw [show zfill 4 (natToString (lastNumber [] + 1)) = "0001" from rfl]
    rw [String.append_assoc]
    rfl
  · have hp := pyParseNat_lastSeg_generate [] now
    have hlast :
        lastNumber [Cert.mk (generate_serial_number [] now) name email dateStr] = 1 := by
      simp [lastNumber, bump, hp]
    show ("PY-" ++ natToString now.year ++ "-") ++
      zfill 4 (natToString (lastNumber
        [Cert.mk (generate_serial_number [] now) name email dateStr] + 1)) = _
    rw [hlast]
    rw [show zfill 4 (natToString (1 + 1)) = "0002" from rfl]
    rw [String.append_assoc]
    rfl

/-- C9: the allocator is total over arbitrary serial strings — a record
whose last dash-separated segment does not parse as an integer is
skipped without changing the result — and the returned serial's numeric
suffix is strictly greater than every parseable suffix in the ledger,
so the returned serial differs from every parseable existing serial. -/
theorem generate_skips_bad_and_exceeds_all (certs : List Cert) (now : Datetime)
    (bad : Cert) (hbad : pyParseNat (lastSeg bad.serial) = none) :
    pyParseNat (lastSeg (generate_serial_number certs now))
      = some (lastNumber certs + 1)
    ∧ generate_serial_number (certs ++ [bad]) now = generate_serial_number certs now
    ∧ ∀ c ∈ certs, ∀ n, pyParseNat (lastSeg c.serial) = some n →
        n < lastNumber certs + 1 ∧ generate_serial_number certs now ≠ c.serial := by
  refine ⟨pyParseNat_lastSeg_generate certs now, ?_, ?_⟩
  · unfold generate_serial_number
    rw [lastNumber_append_bad certs bad hbad]
  · intro c hc n hp
    exact ⟨Nat.lt_succ_of_le (parse_le_lastNumber certs c n hc hp),
      generate_ne_of_parse certs now c n hc hp⟩

/-- C9, witness: a concrete ledger with one parseable record and one
unparseable record. -/
theorem generate_skips_bad_and_exceeds_all_witness :
    pyParseNat (lastSeg (Cert.mk "junk" "B" "b@c.d" "May 02 2025").serial) = none
    ∧ (pyParseNat (lastSeg (generate_serial_number
          [Cert.mk "PY-2025-0003" "A" "a@b.c" "May 01 2025"] ⟨2025, 0⟩))
        = some (lastNumber [Cert.mk "PY-2025-0003" "A" "a@b.c" "May 01 2025"] + 1)
      ∧ generate_serial_number
          ([Cert.mk "PY-2025-0003" "A" "a@b.c" "May 01 2025"] ++
            [Cert.mk "junk" "B" "b@c.d" "May 02 2025"]) ⟨2025, 0⟩
        = generate_serial_number
            [Cert.mk "PY-2025-0003" "A" "a@b.c" "May 01 2025"] ⟨2025, 0⟩
      ∧ ∀ c ∈ [Cert.mk "PY-2025-0003" "A" "a@b.c" "May 01 2025"], ∀ n,
          pyParseNat (lastSeg c.serial) = some n →
            n < lastNumber [Cert.mk "PY-2025-0003" "A" "a@b.c" "May 01 2025"] + 1
            ∧ generate_serial_number
                [Cert.mk "PY-2025-0003" "A" "a@b.c" "May 01 2025"] ⟨2025, 0⟩
              ≠ c.serial) :=
  ⟨by decide,
    generate_skips_bad_and_exceeds_all
      [Cert.mk "PY-2025-0003" "A" "a@b.c" "May 01 2025"] ⟨2025, 0⟩
      (Cert.mk "junk" "B" "b@c.d" "May 02 2025") (by decide)⟩

/-- C2, counterexample: when the ledger load fails, the serial is not
timestamp-derived — two runs at different timestamps (same year)
produce the identical serial, which is exactly the ordinary
empty-ledger counter serial `PY-2025-0001`, not a timestamp fallback. -/
theorem load_failure_serial_not_timestamp_counterexample :
    load_existing_records { envOk with githubReachable := false } = []
    ∧ load_existing_records
        { envOk with githubReachable := false, now := ⟨2025, 314159⟩ } = []
    ∧ generate_serial_number
        (load_existing_records { envOk with githubReachable := false }) ⟨2025, 0⟩
      = "PY-2025-0001"
    ∧ generate_serial_number
        (load_existing_records
          { envOk with githubReachable := false, now := ⟨2025, 314159⟩ })
        ⟨2025, 314159⟩
      = "PY-2025-0001"
    ∧ generate_serial_number [] ⟨2025, 0⟩ = "PY-2025-0001" := by
  decide

/-- C2, amended: if the ledger load raises, `load_existing_records`
returns the empty ledger; the allocator then returns the ordinary
empty-ledger counter serial (not a timestamp-derived one), which is
still syntactically valid, and the issuance proceeds to a successful
send rather than aborting. -/
theorem load_failure_degrades_to_empty_ledger (env : Env)
    (name email dateStr : String)
    (hG : env.githubReachable = false)
    (hT : env.templateOk = true) (hF : env.fontOk = true)
    (hE : env.exportOk = true) (hC : allValues env.emailCfg = true)
    (hS : env.smtpOk = true) :
    load_existing_records env = []
    ∧ ValidSerial (generate_serial_number (load_existing_records env) env.now)
    ∧ (runIssuance env (load_existing_records env) name email dateStr).emailSent
        = true
    ∧ (runIssuance env (load_existing_records env) name email dateStr).certs
        = [Cert.mk (generate_serial_number [] env.now) name email dateStr] := by
  have hload : load_existing_records env = [] := by
    unfold load_existing_records
    cases h : (env.githubToken = "" || env.githubRepo = "") <;> simp [h, hG]
  refine ⟨hload, generate_valid _ _, ?_, ?_⟩ <;>
    rw [hload] <;> simp [runIssuance, hT, hF, hE, hC, hS]

/-- C2, witness. -/
theorem load_failure_degrades_to_empty_ledger_witness :
    (({ envOk with githubReachable := false } : Env).githubReachable = false
      ∧ ({ envOk with githubReachable := false } : Env).templateOk = true
      ∧ allValues ({ envOk with githubReachable := false } : Env).emailCfg = true)
    ∧ (load_existing_records { envOk with githubReachable := false } = []
      ∧ ValidSerial (generate_serial_number
          (load_existing_records { envOk with githubReachable := false })
          ({ envOk with githubReachable := false } : Env).now)
      ∧ (runIssuance { envOk with githubReachable := false }
          (load_existing_records { envOk with githubReachable := false })
          "Alice Doe" "al@ex.com" "May 01 2025").emailSent = true
      ∧ (runIssuance { envOk with githubReachable := false }
          (load_existing_records { envOk with githubReachable := false })
          "Alice Doe" "al@ex.com" "May 01 2025").certs
        = [Cert.mk (generate_serial_number []
            ({ envOk with githubReachable := false } : Env).now)
            "Alice Doe" "al@ex.com" "May 01 2025"]) :=
  ⟨⟨rfl, rfl, rfl⟩,
    load_failure_degrades_to_empty_ledger { envOk with githubReachable := false }
      "Alice Doe" "al@ex.com" "May 01 2025" rfl rfl rfl rfl rfl rfl⟩

/-- C3, counterexample: with the font resource missing, the very first
event of the run is the serial allocation and the font error comes only
afterwards — the fatal font error is not raised prior to serial
allocation. -/
theorem font_error_after_allocation_counterexample :
    (runIssuance { envOk with fontOk := false } []
        "Alice Doe" "al@ex.com" "May 01 2025").trace
      = [Ev.allocate "PY-2025-0001", Ev.templateOpened, Ev.fontError]
    ∧ (runIssuance { envOk with fontOk := false } []
        "Alice Doe" "al@ex.com" "May 01 2025").trace.head?
      = some (Ev.allocate "PY-2025-0001")
    ∧ Ev.fontError ∈ (runIssuance { envOk with fontOk := false } []
        "Alice Doe" "al@ex.com" "May 01 2025").trace := by
  decide

/-- C3, amended: a missing font aborts the issuance after the serial has
been allocated but before any send or ledger write; since allocation
does not mutate the session ledger, no serial is consumed, and a rerun
on the unchanged ledger allocates the same serial again. -/
theorem font_error_aborts_without_consuming (env : Env) (certs0 : List Cert)
    (name email dateStr : String)
    (hF : env.fontOk = false) (hT : env.templateOk = true) :
    (runIssuance env certs0 name email dateStr).certs = certs0
    ∧ (runIssuance env certs0 name email dateStr).emailSent = false
    ∧ (runIssuance env certs0 name email dateStr).saveAttempted = false
    ∧ Ev.fontError ∈ (runIssuance env certs0 name email dateStr).trace
    ∧ generate_serial_number (runIssuance env certs0 name email dateStr).certs
        env.now
      = generate_serial_number certs0 env.now := by
  simp [runIssuance, hF, hT]

/-- C3, witness. -/
theorem font_error_aborts_without_consuming_witness :
    (({ envOk with fontOk := false } : Env).fontOk = false
      ∧ ({ envOk with fontOk := false } : Env).templateOk = true)
    ∧ ((runIssuance { envOk with fontOk := false }
          [Cert.mk "PY-2025-0007" "A" "a@b.c" "May 01 2025"]
          "Alice Doe" "al@ex.com" "May 01 2025").certs
        = [Cert.mk "PY-2025-0007" "A" "a@b.c" "May 01 2025"]
      ∧ (runIssuance { envOk with fontOk := false }
          [Cert.mk "PY-2025-0007" "A" "a@b.c" "May 01 2025"]
          "Alice Doe" "al@ex.com" "May 01 2025").emailSent = false
      ∧ (runIssuance { envOk with fontOk := false }
          [Cert.mk "PY-2025-0007" "A" "a@b.c" "May 01 2025"]
          "Alice Doe" "al@ex.com" "May 01 2025").saveAttempted = false
      ∧ Ev.fontError ∈ (runIssuance { envOk with fontOk := false }
          [Cert.mk "PY-2025-0007" "A" "a@b.c" "May 01 2025"]
          "Alice Doe" "al@ex.com" "May 01 2025").trace
      ∧ generate_serial_number
          (runIssuance { envOk with fontOk := false }
            [Cert.mk "PY-2025-0007" "A" "a@b.c" "May 01 2025"]
            "Alice Doe" "al@ex.com" "May 01 2025").certs
          ({ envOk with fontOk := false } : Env).now
        = generate_serial_number
            [Cert.mk "PY-2025-0007" "A" "a@b.c" "May 01 2025"]
            ({ envOk with fontOk := false } : Env).now) :=
  ⟨⟨rfl, rfl⟩,
    font_error_aborts_without_consuming { envOk with fontOk := false }
      [Cert.mk "PY-2025-0007" "A" "a@b.c" "May 01 2025"]
      "Alice Doe" "al@ex.com" "May 01 2025" rfl rfl⟩

/-- C4, counterexample: delivery succeeds, the ledger write fails, and
yet the only user-facing message is the send-success text — no warning
of any kind is shown, and in particular nothing names the unrecorded
serial. -/
theorem save_failure_silent_counterexample :
    (runIssuance { envOk with saveWriteOk := false } []
        "Alice Doe" "al@ex.com" "May 01 2025").messages
      = [(MsgKind.success, "Email sent successfully!")]
    ∧ (runIssuance { envOk with saveWriteOk := false } []
        "Alice Doe" "al@ex.com" "May 01 2025").emailSent = true
    ∧ (save_to_github { envOk with saveWriteOk := false }
        (runIssuance { envOk with saveWriteOk := false } []
          "Alice Doe" "al@ex.com" "May 01 2025").certs).1 = false
    ∧ (∀ m ∈ (runIssuance { envOk with saveWriteOk := false } []
        "Alice Doe" "al@ex.com" "May 01 2025").messages,
        m.1 ≠ MsgKind.warning) := by
  decide

/-- C4, amended: when the ledger append fails after a successful send,
the code emits no warning at all: the sole user-facing message is the
send-success text (which does not name the serial), the save-success
message is suppressed, the failure is recorded only in the event trace,
and the issuance continues with the record kept in the session ledger. -/
theorem save_failure_reports_nothing (env : Env) (certs0 : List Cert)
    (name email dateStr : String)
    (hT : env.templateOk = true) (hF : env.fontOk = true)
    (hE : env.exportOk = true) (hC : allValues env.emailCfg = true)
    (hS : env.smtpOk = true)
    (hsave : (save_to_github env (certs0 ++
        [Cert.mk (generate_serial_number certs0 env.now) name email dateStr])).1
      = false) :
    (runIssuance env certs0 name email dateStr).messages
      = [(MsgKind.success, "Email sent successfully!")]
    ∧ (runIssuance env certs0 name email dateStr).emailSent = true
    ∧ (runIssuance env certs0 name email dateStr).certs
      = certs0 ++ [Cert.mk (generate_serial_number certs0 env.now) name email dateStr]
    ∧ Ev.saveFailEv ∈ (runIssuance env certs0 name email dateStr).trace := by
  simp [runIssuance, hT, hF, hE, hC, hS, hsave]

/-- C4, witness. -/
theorem save_failure_reports_nothing_witness :
    (({ envOk with saveWriteOk := false } : Env).smtpOk = true
      ∧ (save_to_github { envOk with saveWriteOk := false }
          ([] ++ [Cert.mk (generate_serial_number []
              ({ envOk with saveWriteOk := false } : Env).now)
              "Alice Doe" "al@ex.com" "May 01 2025"])).1 = false)
    ∧ ((runIssuance { envOk with saveWriteOk := false } []
          "Alice Doe" "al@ex.com" "May 01 2025").messages
        = [(MsgKind.success, "Email sent successfully!")]
      ∧ (runIssuance { envOk with saveWriteOk := false } []
          "Alice Doe" "al@ex.com" "May 01 2025").emailSent = true
      ∧ (runIssuance { envOk with saveWriteOk := false } []
          "Alice Doe" "al@ex.com" "May 01 2025").certs
        = [] ++ [Cert.mk (generate_serial_number []
            ({ envOk with saveWriteOk := false } : Env).now)
            "Alice Doe" "al@ex.com" "May 01 2025"]
      ∧ Ev.saveFailEv ∈ (runIssuance { envOk with saveWriteOk := false } []
          "Alice Doe" "al@ex.com" "May 01 2025").trace) :=
  ⟨⟨rfl, by decide⟩,
    save_failure_reports_nothing { envOk with saveWriteOk := false } []
      "Alice Doe" "al@ex.com" "May 01 2025" rfl rfl rfl rfl rfl (by decide)⟩

/-- C5: any failure before the send step — template open, font load, or
PDF export raising — aborts the issuance with the session ledger
unchanged, no persistence write attempted, and no email sent. -/
theorem failure_before_send_aborts_clean (env : Env) (certs0 : List Cert)
    (name email dateStr : String)
    (h : env.templateOk = false ∨ env.fontOk = false ∨ env.exportOk = false) :
    (runIssuance env certs0 name email dateStr).certs = certs0
    ∧ (runIssuance env certs0 name email dateStr).emailSent = false
    ∧ (runIssuance env certs0 name email dateStr).saveAttempted = false
    ∧ Ev.smtpConnect ∉ (runIssuance env certs0 name email dateStr).trace
    ∧ Ev.saveAttempt ∉ (runIssuance env certs0 name email dateStr).trace := by
  cases hT : env.templateOk <;> cases hF : env.fontOk <;>
    cases hE : env.exportOk <;> simp_all [runIssuance]

/-- C5, witness: the export step failing. -/
theorem failure_before_send_aborts_clean_witness :
    (({ envOk with exportOk := false } : Env).templateOk = false
      ∨ ({ envOk with exportOk := false } : Env).fontOk = false
      ∨ ({ envOk with exportOk := false } : Env).exportOk = false)
    ∧ ((runIssuance { envOk with exportOk := false } []
          "Alice Doe" "al@ex.com" "May 01 2025").certs = []
      ∧ (runIssuance { envOk with exportOk := false } []
          "Alice Doe" "al@ex.com" "May 01 2025").emailSent = false
      ∧ (runIssuance { envOk with exportOk := false } []
          "Alice Doe" "al@ex.com" "May 01 2025").saveAttempted = false
      ∧ Ev.smtpConnect ∉ (runIssuance { envOk with exportOk := false } []
          "Alice Doe" "al@ex.com" "May 01 2025").trace
      ∧ Ev.saveAttempt ∉ (runIssuance { envOk with exportOk := false } []
          "Alice Doe" "al@ex.com" "May 01 2025").trace) :=
  ⟨Or.inr (Or.inr rfl),
    failure_before_send_aborts_clean { envOk with exportOk := false } []
      "Alice Doe" "al@ex.com" "May 01 2025" (Or.inr (Or.inr rfl))⟩

/-- C6, counterexample: the persisted header row is
`serial,name,email,date` — it mentions none of the claimed field names
`Number`, `sequence`, `Date`, or `Serial Number` — and the data row of a
concrete record carries only the four values serial, name, email, date,
with no sequence-number column. -/
theorem ledger_header_counterexample :
    ledgerCSVLines [Cert.mk "PY-2025-0001" "Alice" "al@ex.com" "May 01 2025"]
      = ["serial,name,email,date", "PY-2025-0001,Alice,al@ex.com,May 01 2025"]
    ∧ ledgerCSV [Cert.mk "PY-2025-0001" "Alice" "al@ex.com" "May 01 2025"]
      = "serial,name,email,date\nPY-2025-0001,Alice,al@ex.com,May 01 2025\n"
    ∧ containsSeq ("Serial Number".data) ("serial,name,email,date".data) = false
    ∧ containsSeq ("Number".data) ("serial,name,email,date".data) = false
    ∧ containsSeq ("sequence".data) ("serial,name,email,date".data) = false
    ∧ containsSeq ("Date".data) ("serial,name,email,date".data) = false := by
  decide

/-- C6, amended: the persisted ledger is comma-separated text whose
header row is `serial,name,email,date`, with exactly one data row per
issuance, each row holding a record's serial, name, email and date in
that order; the records carry no sequence-number field at all. -/
theorem ledger_csv_shape (data : List Cert) (i : Nat) :
    (ledgerCSVLines data).length = data.length + 1
    ∧ (ledgerCSVLines data)[0]? = some "serial,name,email,date"
    ∧ (ledgerCSVLines data)[i + 1]? = (data[i]?).map certRow
    ∧ ledgerCSV data
      = String.join ((ledgerCSVLines data).map (fun line => line ++ "\n")) := by
  refine ⟨by simp [ledgerCSVLines], by simp [ledgerCSVLines], ?_, rfl⟩
  simp [ledgerCSVLines]

/-- C7, counterexample: with the remote-ledger token missing, the
issuance neither fails nor shows any error — the certificate is still
generated and the email sent — so a missing remote-ledger credential is
not fatal and raises nothing. -/
theorem missing_github_config_not_fatal_counterexample :
    load_existing_records { envOk with githubToken := "" } = []
    ∧ (runIssuance { envOk with githubToken := "" } []
        "Alice Doe" "al@ex.com" "May 01 2025").emailSent = true
    ∧ (∀ m ∈ (runIssuance { envOk with githubToken := "" } []
        "Alice Doe" "al@ex.com" "May 01 2025").messages,
        m.1 ≠ MsgKind.error)
    ∧ (save_to_github { envOk with githubToken := "" }
        (runIssuance { envOk with githubToken := "" } []
          "Alice Doe" "al@ex.com" "May 01 2025").certs).1 = false := by
  decide

/-- C7, amended: missing SMTP credentials are fatal for the issuance,
raised before any SMTP connection is attempted, with the fixed
user-facing message `Missing email configuration`; missing remote-ledger
credentials, by contrast, are non-fatal — the load degrades to an empty
ledger and the save merely returns its failure flag writing nothing. -/
theorem missing_config_behaviour (env1 env2 : Env) (certs0 data : List Cert)
    (name email dateStr : String)
    (hC : allValues env1.emailCfg = false)
    (hT : env1.templateOk = true) (hF : env1.fontOk = true)
    (hE : env1.exportOk = true)
    (hG : env2.githubToken = "") :
    ((runIssuance env1 certs0 name email dateStr).messages
        = [(MsgKind.error, "Missing email configuration")]
      ∧ (runIssuance env1 certs0 name email dateStr).emailSent = false
      ∧ (runIssuance env1 certs0 name email dateStr).certs = certs0
      ∧ (runIssuance env1 certs0 name email dateStr).saveAttempted = false
      ∧ Ev.smtpConnect ∉ (runIssuance env1 certs0 name email dateStr).trace)
    ∧ (load_existing_records env2 = []
      ∧ (save_to_github env2 data).1 = false
      ∧ (save_to_github env2 data).2 = none) := by
  constructor
  · simp [runIssuance, hC, hT, hF, hE]
  · refine ⟨?_, ?_, ?_⟩ <;> simp [load_existing_records, save_to_github, hG]

/-- C7, witness. -/
theorem missing_config_behaviour_witness :
    (allValues ({ envOk with emailCfg := cfgMissing } : Env).emailCfg = false
      ∧ ({ envOk with githubToken := "" } : Env).githubToken = "")
    ∧ (((runIssuance { envOk with emailCfg := cfgMissing } []
          "Alice Doe" "al@ex.com" "May 01 2025").messages
        = [(MsgKind.error, "Missing email configuration")]
      ∧ (runIssuance { envOk with emailCfg := cfgMissing } []
          "Alice Doe" "al@ex.com" "May 01 2025").emailSent = false
      ∧ (runIssuance { envOk with emailCfg := cfgMissing } []
          "Alice Doe" "al@ex.com" "May 01 2025").certs = []
      ∧ (runIssuance { envOk with emailCfg := cfgMissing } []
          "Alice Doe" "al@ex.com" "May 01 2025").saveAttempted = false
      ∧ Ev.smtpConnect ∉ (runIssuance { envOk with emailCfg := cfgMissing } []
          "Alice Doe" "al@ex.com" "May 01 2025").trace)
    ∧ (load_existing_records { envOk with githubToken := "" } = []
      ∧ (save_to_github { envOk with githubToken := "" }
          [Cert.mk "PY-2025-0001" "Alice" "al@ex.com" "May 01 2025"]).1 = false
      ∧ (save_to_github { envOk with githubToken := "" }
          [Cert.mk "PY-2025-0001" "Alice" "al@ex.com" "May 01 2025"]).2 = none)) :=
  ⟨⟨rfl, rfl⟩,
    missing_config_behaviour { envOk with emailCfg := cfgMissing }
      { envOk with githubToken := "" } []
      [Cert.mk "PY-2025-0001" "Alice" "al@ex.com" "May 01 2025"]
      "Alice Doe" "al@ex.com" "May 01 2025" rfl rfl rfl rfl rfl⟩

/-- C8, counterexample: the serial field is not centered around any
fixed anchor x-coordinate — its center `serial_x w + w / 2` moves with
the measured width (1674 at width 0, 1673 at width 2). -/
theorem serial_not_centered_counterexample :
    ¬ ∃ a : ℚ, ∀ w : ℚ, serial_x w + w / 2 = a := by
  rintro ⟨a, h⟩
  have h0 := h 0
  have h2 := h 2
  simp [serial_x] at h0 h2
  rw [← h0] at h2
  norm_num at h2

/-- C8, amended: the compositor measures each text's bounding box and
then centers the name around the fixed anchor x = 959, right-aligns the
serial so that its right edge sits at x = 1674 (40 px from the 1714 px
edge), and draws the date left-aligned at the fixed point (660, 1038). -/
theorem text_positioning (w : ℚ) :
    name_x w + w / 2 = 959
    ∧ serial_x w + w = 1674
    ∧ date_pos = (660, 1038) := by
  refine ⟨?_, ?_, rfl⟩
  · rw [name_x]; ring
  · rw [serial_x]; ring

/-- C10: when the remote ledger write fails after a successful send, the
newly issued record stays appended to the in-memory session ledger, so
the next allocation in the same session sees that serial and returns a
different one. -/
theorem session_ledger_keeps_record_on_save_failure (env : Env)
    (certs0 : List Cert) (name email dateStr : String)
    (hT : env.templateOk = true) (hF : env.fontOk = true)
    (hE : env.exportOk = true) (hC : allValues env.emailCfg = true)
    (hS : env.smtpOk = true)
    (hsave : (save_to_github env (certs0 ++
        [Cert.mk (generate_serial_number certs0 env.now) name email dateStr])).1
      = false) :
    (runIssuance env certs0 name email dateStr).certs
      = certs0 ++ [Cert.mk (generate_serial_number certs0 env.now) name email dateStr]
    ∧ generate_serial_number certs0 env.now
      ∈ (runIssuance env certs0 name email dateStr).certs.map Cert.serial
    ∧ Ev.saveFailEv ∈ (runIssuance env certs0 name email dateStr).trace
    ∧ generate_serial_number (runIssuance env certs0 name email dateStr).certs
        env.now
      ≠ generate_serial_number certs0 env.now := by
  have hcerts : (runIssuance env certs0 name email dateStr).certs
      = certs0 ++ [Cert.mk (generate_serial_number certs0 env.now) name email dateStr] := by
    simp [runIssuance, hT, hF, hE, hC, hS]
  refine ⟨hcerts, ?_, ?_, ?_⟩
  · rw [hcerts]
    simp
  · simp [runIssuance, hT, hF, hE, hC, hS, hsave]
  · rw [hcerts]
    exact generate_ne_of_parse _ env.now
      (Cert.mk (generate_serial_number certs0 env.now) name email dateStr)
      (lastNumber certs0 + 1)
      (List.mem_append_right certs0 (List.mem_singleton.mpr rfl))
      (pyParseNat_lastSeg_generate certs0 env.now)

/-- C10, witness. -/
theorem session_ledger_keeps_record_on_save_failure_witness :
    (({ envOk with saveWriteOk := false } : Env).templateOk = true
      ∧ (save_to_github { envOk with saveWriteOk := false }
          ([Cert.mk "PY-2025-0004" "A" "a@b.c" "May 01 2025"] ++
            [Cert.mk (generate_serial_number
                [Cert.mk "PY-2025-0004" "A" "a@b.c" "May 01 2025"]
                ({ envOk with saveWriteOk := false } : Env).now)
              "Bob Roe" "bob@ex.com" "May 02 2025"])).1 = false)
    ∧ ((runIssuance { envOk with saveWriteOk := false }
          [Cert.mk "PY-2025-0004" "A" "a@b.c" "May 01 2025"]
          "Bob Roe" "bob@ex.com" "May 02 2025").certs
        = [Cert.mk "PY-2025-0004" "A" "a@b.c" "May 01 2025"] ++
            [Cert.mk (generate_serial_number
                [Cert.mk "PY-2025-0004" "A" "a@b.c" "May 01 2025"]
                ({ envOk with saveWriteOk := false } : Env).now)
              "Bob Roe" "bob@ex.com" "May 02 2025"]
      ∧ generate_serial_number [Cert.mk "PY-2025-0004" "A" "a@b.c" "May 01 2025"]
          ({ envOk with saveWriteOk := false } : Env).now
        ∈ (runIssuance { envOk with saveWriteOk := false }
            [Cert.mk "PY-2025-0004" "A" "a@b.c" "May 01 2025"]
            "Bob Roe" "bob@ex.com" "May 02 2025").certs.map Cert.serial
      ∧ Ev.saveFailEv ∈ (runIssuance { envOk with saveWriteOk := false }
          [Cert.mk "PY-2025-0004" "A" "a@b.c" "May 01 2025"]
          "Bob Roe" "bob@ex.com" "May 02 2025").trace
      ∧ generate_serial_number
          (runIssuance { envOk with saveWriteOk := false }
            [Cert.mk "PY-2025-0004" "A" "a@b.c" "May 01 2025"]
            "Bob Roe" "bob@ex.com" "May 02 2025").certs
          ({ envOk with saveWriteOk := false } : Env).now
        ≠ generate_serial_number [Cert.mk "PY-2025-0004" "A" "a@b.c" "May 01 2025"]
            ({ envOk with saveWriteOk := false } : Env).now) :=
  ⟨⟨rfl, by decide⟩,
    session_ledger_keeps_record_on_save_failure
      { envOk with saveWriteOk := false }
      [Cert.mk "PY-2025-0004" "A" "a@b.c" "May 01 2025"]
      "Bob Roe" "bob@ex.com" "May 02 2025" rfl rfl rfl rfl rfl (by decide)⟩

end CertGen
